import Mathlib

/-!
Verification development for the `screw` HTTP dispatch / WebSocket upgrade library.

The Rust sources are shallowly embedded: machine integers become `Nat` with
explicit reductions modulo 2^32 where overflow matters, `HashMap` becomes an
association list whose insert replaces the previous binding for the key,
fallible code returns `Except`, and asynchronous handler invocation is modelled
as selection and application of the handler value.
-/

set_option autoImplicit false

namespace Screw

/-! ### Model of `std::collections::HashMap<(Method, String), Handler>`

The dispatch table of `screw-core/src/routing/router/router_builder.rs` keys
handlers by `(Method, String)`.  We model the map as an association list in
which `insert` removes any previous binding of the key, matching the
replace-on-collision semantics of `HashMap::insert`, and `get` returns the
unique binding when present. -/

abbrev RouteKey := String × String

abbrev HMap (V : Type) := List (RouteKey × V)

def hmGet {V : Type} (m : HMap V) (k : RouteKey) : Option V :=
  (m.find? (fun e => decide (e.1 = k))).map (fun e => e.2)

def hmInsert {V : Type} (m : HMap V) (k : RouteKey) (v : V) : HMap V :=
  (k, v) :: m.filter (fun e => decide (e.1 ≠ k))

/-- Model of `HashMap::extend` (used by `RouterBuilder::routes`): every binding
of the second map is inserted into the first, later bindings overwriting. -/
def hmExtend {V : Type} (m1 m2 : HMap V) : HMap V :=
  m2.foldl (fun acc e => hmInsert acc e.1 e.2) m1

/-! ### `RouterBuilder` (screw-core/src/routing/router/router_builder.rs) -/

inductive RouterBuilderError where
  | FallbackHandlerMissing
deriving DecidableEq

/-- Source struct `HandlerRoute` as consumed by `RouterBuilder::route`: a
method, a path and the handler to bind. -/
structure HandlerRoute (H : Type) where
  method : String
  path : String
  handler : H

/-- Source struct `RoutesCollection`: a pre-assembled handler map merged into
the builder by `RouterBuilder::routes` via `HashMap::extend`. -/
structure RoutesCollection (H : Type) where
  handlers : HMap H

/-- Source struct `RouterBuilder`: the handler map accumulated so far and the
optional fallback handler (`None` until `fallback_handler` is called). -/
structure RouterBuilder (H : Type) where
  handlers : HMap H
  fallback_handler : Option H

/-- Source `impl Default for RouterBuilder`: empty map, no fallback. -/
def RouterBuilder.default (H : Type) : RouterBuilder H :=
  { handlers := [], fallback_handler := none }

/-- Source `RouterBuilder::fallback_handler`: stores the handler as `Some`. -/
def RouterBuilder.fallbackHandler {H : Type} (b : RouterBuilder H) (h : H) :
    RouterBuilder H :=
  { b with fallback_handler := some h }

/-- Source `RouterBuilder::route`: inserts the handler under the key
`(route.method, route.path)`. -/
def RouterBuilder.route {H : Type} (b : RouterBuilder H) (r : HandlerRoute H) :
    RouterBuilder H :=
  { b with handlers := hmInsert b.handlers (r.method, r.path) r.handler }

/-- Source `RouterBuilder::routes`: `self.handlers.extend(routes.handlers)`. -/
def RouterBuilder.routes {H : Type} (b : RouterBuilder H) (rc : RoutesCollection H) :
    RouterBuilder H :=
  { b with handlers := hmExtend b.handlers rc.handlers }

/-- Source struct `Router` as constructed by `RouterBuilder::build`: the final
handler map plus the mandatory fallback handler. -/
structure Router (H : Type) where
  handlers : HMap H
  fallback_handler : H

/-- Source `RouterBuilder::build`: `Ok` with the accumulated handlers and the
fallback, or `Err(FallbackHandlerMissing)` when the fallback is absent. -/
def RouterBuilder.build {H : Type} (b : RouterBuilder H) :
    Except RouterBuilderError (Router H) :=
  match b.fallback_handler with
  | some f => .ok { handlers := b.handlers, fallback_handler := f }
  | none => .error .FallbackHandlerMissing

/-- Modelled from the spec: the router module file defining `Router::process`
is not under `src/` (only `router_builder.rs` and callers such as
`routable_responder.rs`, which invokes `router.process(request)`, are).  Per
the spec, `process` looks up `(method, exact path)` in the table; on hit it
invokes the bound handler and on miss the fallback handler.  Invocation is
modelled as returning the unique handler that gets invoked. -/
def Router.process {H : Type} (r : Router H) (method path : String) : H :=
  (hmGet r.handlers (method, path)).getD r.fallback_handler

/-! ### HTTP requests and responses (shallow model of the `hyper` types used)

Header names in `hyper::HeaderMap` are matched case-insensitively (names are
normalised to lowercase); `get` returns the first value for the name.  Header
values are byte strings; `HeaderValue::to_str` succeeds only when every byte
is visible ASCII (32..126) or tab.  The HTTP version enum is ordered
HTTP_09 < HTTP_10 < HTTP_11 < HTTP_2 < HTTP_3; we encode it by the numbers
9, 10, 11, 20, 30 so that the order agrees. -/

structure HttpRequest where
  method : String
  version : Nat
  headers : List (String × List Nat)
  body : List Nat

structure HttpResponse where
  status : Nat
  headers : List (String × String)
  body : List Nat
deriving DecidableEq

def strBytes (s : String) : List Nat :=
  s.toList.map Char.toNat

def asciiLower (c : Char) : Char :=
  if 65 ≤ c.toNat ∧ c.toNat ≤ 90 then Char.ofNat (c.toNat + 32) else c

/-- Rust `str::eq_ignore_ascii_case`, over the character lists we use for
header text. -/
def eqIgnoreAsciiCase (a b : List Char) : Bool :=
  a.map asciiLower = b.map asciiLower

def lowerName (s : String) : List Char :=
  s.toList.map asciiLower

/-- Model of `HeaderMap::get(name)`: first value whose name matches the given
name up to ASCII case. -/
def headerGet (r : HttpRequest) (name : String) : Option (List Nat) :=
  (r.headers.find? (fun e => lowerName e.1 = lowerName name)).map (fun e => e.2)

/-- Byte admissible for `HeaderValue::to_str` (the `http` crate accepts
visible ASCII, space and tab). -/
def visibleAsciiByte (b : Nat) : Bool :=
  (32 ≤ b && b < 127) || b == 9

/-- Model of `HeaderValue::to_str().ok()`: the value read as text when every
byte is visible ASCII, `none` otherwise. -/
def toStr? (bs : List Nat) : Option (List Char) :=
  if bs.all visibleAsciiByte then some (bs.map Char.ofNat) else none

/-- Rust `str::split(p)`: splits at every character satisfying `p`, keeping
empty pieces. -/
def splitChars (p : Char → Bool) : List Char → List (List Char)
  | [] => [[]]
  | c :: rest =>
    if p c then
      [] :: splitChars p rest
    else
      match splitChars p rest with
      | [] => [[c]]
      | g :: gs => (c :: g) :: gs

/-! ### WebSocket handshake validation (screw-ws/src/middleware.rs) -/

def is_get_method (r : HttpRequest) : Bool :=
  r.method == "GET"

def is_http_version_11_or_larger (r : HttpRequest) : Bool :=
  decide (11 ≤ r.version)

/-- Source `is_connection_header_upgrade`: the `Connection` header read as a
string, split on space and comma, must contain a token equal to `Upgrade` up
to ASCII case. -/
def is_connection_header_upgrade (r : HttpRequest) : Bool :=
  (((headerGet r "Connection").bind toStr?).map
    (fun h =>
      (splitChars (fun c => c == ' ' || c == ',') h).any
        (fun p => eqIgnoreAsciiCase p "Upgrade".toList))).getD false

/-- Source `is_upgrade_header_web_socket`: the `Upgrade` header read as a
string must equal `websocket` up to ASCII case. -/
def is_upgrade_header_web_socket (r : HttpRequest) : Bool :=
  (((headerGet r "Upgrade").bind toStr?).map
    (fun h => eqIgnoreAsciiCase h "websocket".toList)).getD false

/-- Source `is_web_socket_version_header_13`: the raw bytes of the
`Sec-WebSocket-Version` header must equal the bytes of `13` (the `http`
crate compares `HeaderValue == str` bytewise, without `to_str`). -/
def is_web_socket_version_header_13 (r : HttpRequest) : Bool :=
  ((headerGet r "Sec-WebSocket-Version").map
    (fun h => decide (h = strBytes "13"))).getD false

def get_web_socket_key_header (r : HttpRequest) : Option (List Nat) :=
  headerGet r "Sec-WebSocket-Key"

/-! ### SHA-1 and base64 (the `derive_accept_key` dependency)

`try_upgradable` calls `tokio_tungstenite::tungstenite::handshake::`
`derive_accept_key`, an external collaborator.  The spec fixes its meaning:
`accept = base64(SHA-1(key + "258EAFA5-E914-47DA-95CA-C5AB0DC85B11"))`.  We
implement SHA-1 (FIPS 180) and standard base64 executably; the RFC 6455 test
vector in the spec checks the implementation. -/

def w32 (n : Nat) : Nat := n % 4294967296

def rotl (k n : Nat) : Nat :=
  w32 ((w32 n) <<< k) ||| ((w32 n) >>> (32 - k))

def sha1f (t b c d : Nat) : Nat :=
  if t < 20 then (b &&& c) ||| ((b ^^^ 4294967295) &&& d)
  else if t < 40 then b ^^^ c ^^^ d
  else if t < 60 then (b &&& c) ||| (b &&& d) ||| (c &&& d)
  else b ^^^ c ^^^ d

def sha1K (t : Nat) : Nat :=
  if t < 20 then 0x5A827999
  else if t < 40 then 0x6ED9EBA1
  else if t < 60 then 0x8F1BBCDC
  else 0xCA62C1D6

/-- Big-endian bytes of `n`, `count` bytes wide. -/
def beBytes (n count : Nat) : List Nat :=
  (List.range count).map (fun i => n / 256 ^ (count - 1 - i) % 256)

/-- Four big-endian bytes at a time into 32-bit words. -/
def chunkWords : List Nat → List Nat
  | b0 :: b1 :: b2 :: b3 :: rest =>
    (((b0 * 256 + b1) * 256 + b2) * 256 + b3) :: chunkWords rest
  | _ => []

/-- Extend the 16-word schedule by `n` more words. -/
def sha1Extend : Nat → List Nat → List Nat
  | 0, ws => ws
  | n + 1, ws =>
    let l := ws.length
    let w := rotl 1 ((ws.getD (l - 3) 0) ^^^ (ws.getD (l - 8) 0) ^^^
      (ws.getD (l - 14) 0) ^^^ (ws.getD (l - 16) 0))
    sha1Extend n (ws ++ [w])

abbrev Sha1State := Nat × Nat × Nat × Nat × Nat

def sha1Rounds : Nat → List Nat → Sha1State → Sha1State
  | _, [], st => st
  | t, w :: rest, (a, b, c, d, e) =>
    let temp := w32 (rotl 5 a + sha1f t b c d + e + sha1K t + w)
    sha1Rounds (t + 1) rest (temp, a, rotl 30 b, c, d)

def sha1Block (h : Sha1State) (block : List Nat) : Sha1State :=
  let ws := sha1Extend 64 (chunkWords block)
  match h, sha1Rounds 0 ws h with
  | (h0, h1, h2, h3, h4), (a, b, c, d, e) =>
    (w32 (h0 + a), w32 (h1 + b), w32 (h2 + c), w32 (h3 + d), w32 (h4 + e))

/-- Fold `sha1Block` over the 64-byte blocks of the message; the fuel is an
upper bound on the number of blocks and makes the recursion structural. -/
def sha1Go : Nat → Sha1State → List Nat → Sha1State
  | 0, h, _ => h
  | _ + 1, h, [] => h
  | fuel + 1, h, b :: rest =>
    sha1Go fuel (sha1Block h ((b :: rest).take 64)) ((b :: rest).drop 64)

def sha1Process (h : Sha1State) (bs : List Nat) : Sha1State :=
  sha1Go bs.length h bs

/-- FIPS 180 padding: `0x80`, zeros to 56 mod 64, then the bit length as eight
big-endian bytes. -/
def sha1Pad (msg : List Nat) : List Nat :=
  msg ++ [128] ++ List.replicate ((119 - msg.length % 64) % 64) 0 ++
    beBytes (8 * msg.length) 8

def sha1 (msg : List Nat) : List Nat :=
  match sha1Process (0x67452301, 0xEFCDAB89, 0x98BADCFE, 0x10325476, 0xC3D2E1F0)
      (sha1Pad msg) with
  | (h0, h1, h2, h3, h4) =>
    beBytes h0 4 ++ beBytes h1 4 ++ beBytes h2 4 ++ beBytes h3 4 ++ beBytes h4 4

def base64Alphabet : List Char :=
  "ABCDEFGHIJKLMNOPQRSTUVWXYZabcdefghijklmnopqrstuvwxyz0123456789+/".toList

def b64c (n : Nat) : Char := base64Alphabet.getD n 'A'

def base64Encode : List Nat → List Char
  | [] => []
  | [a] => [b64c (a / 4), b64c (a % 4 * 16), '=', '=']
  | [a, b] => [b64c (a / 4), b64c (a % 4 * 16 + b / 16), b64c (b % 16 * 4), '=']
  | a :: b :: c :: rest =>
    b64c (a / 4) :: b64c (a % 4 * 16 + b / 16) :: b64c (b % 16 * 4 + c / 64) ::
      b64c (c % 64) :: base64Encode rest

/-- The `derive_accept_key` dependency, per its specified meaning: base64 of
the SHA-1 digest of the key bytes followed by the RFC 6455 GUID. -/
def derive_accept_key (key : List Nat) : String :=
  ⟨base64Encode (sha1 (key ++ strBytes "258EAFA5-E914-47DA-95CA-C5AB0DC85B11"))⟩

/-! ### `try_upgradable` and the middleware response (screw-ws/src/middleware.rs) -/

inductive ProtocolError where
  | WrongHttpMethod
  | WrongHttpVersion
  | MissingConnectionUpgradeHeader
  | MissingUpgradeWebSocketHeader
  | MissingSecWebSocketVersionHeader
  | MissingSecWebSocketKey
deriving DecidableEq

/-- Source struct `WebSocketUpgradable` (the `on_upgrade` future is not
modelled; `key` is the derived accept key). -/
structure WebSocketUpgradable where
  key : String
deriving DecidableEq

/-- Source `try_upgradable`: the six validation checks in source order, first
failure wins; on success the accept key is derived from the
`Sec-WebSocket-Key` value. -/
def try_upgradable (r : HttpRequest) : Except ProtocolError WebSocketUpgradable :=
  if !is_get_method r then .error .WrongHttpMethod
  else if !is_http_version_11_or_larger r then .error .WrongHttpVersion
  else if !is_connection_header_upgrade r then .error .MissingConnectionUpgradeHeader
  else if !is_upgrade_header_web_socket r then .error .MissingUpgradeWebSocketHeader
  else if !is_web_socket_version_header_13 r then .error .MissingSecWebSocketVersionHeader
  else
    match get_web_socket_key_header r with
    | none => .error .MissingSecWebSocketKey
    | some k => .ok { key := derive_accept_key k }

/-- Outcome of `WebSocketMiddlewareConverter::respond`: either a normal HTTP
response or a `panic!` (which aborts the calling task). -/
inductive RespondOutcome where
  | panicked (msg : String)
  | response (resp : HttpResponse)
deriving DecidableEq

/-- Source `WebSocketMiddlewareConverter::respond`, restricted to the HTTP
response it produces: on success a 101 with the three upgrade headers and an
empty body (the wrapped handler and the detached background task do not touch
the response); on `WrongHttpMethod` a `panic!`; on any other protocol error a
400 with an empty body. -/
def wsRespond (r : HttpRequest) : RespondOutcome :=
  match try_upgradable r with
  | .ok u =>
    .response
      { status := 101
        headers := [("Connection", "Upgrade"), ("Upgrade", "websocket"),
          ("Sec-WebSocket-Accept", u.key)]
        body := [] }
  | .error .WrongHttpMethod =>
    .panicked "incorrect method for WebSocket, should be GET"
  | .error _ =>
    .response { status := 400, headers := [], body := [] }

/-! ### JSON request conversion (screw-api/src/json_converter.rs and
screw-api-converters/src/json_converter.rs)

Both realizations extract the `Content-Type` header, read it as a string with
`to_str()?` (so a value with non-visible-ASCII bytes yields a `ToStr` error
folded into the result), and then match: the literal `application/json` reads
and deserializes the body, the empty string or an absent header yields the
missed error, any other string the incorrect error.  Body deserialization is
modelled by a caller-supplied `from_slice` function (`serde_json::from_slice`);
reading the body to bytes is modelled as already done (`hyper::body::to_bytes`
failures concern the transport, not this logic).  Error constructor names
follow `JsonApiRequestConvertError` in screw-api-converters. -/

inductive JsonApiRequestConvertError where
  | ContentTypeMissed
  | ContentTypeIncorrect
  | ToStr
  | Hyper
  | SerdeJson
deriving DecidableEq

def jsonConvertData {Data : Type} (from_slice : List Nat → Option Data)
    (r : HttpRequest) : Except JsonApiRequestConvertError Data :=
  match headerGet r "Content-Type" with
  | some v =>
    match toStr? v with
    | none => .error .ToStr
    | some ct =>
      if ct = "application/json".toList then
        match from_slice r.body with
        | some d => .ok d
        | none => .error .SerdeJson
      else if ct = [] then .error .ContentTypeMissed
      else .error .ContentTypeIncorrect
  | none => .error .ContentTypeMissed

/-- Source struct `ApiRequest`: the inner typed request handed to the wrapped
handler; it always carries a content value. -/
structure ApiRequest (Content : Type) where
  content : Content

/-- Source `JsonApiRequestConverter::convert_request`: the decode result (of
whatever kind) is folded into the content via the content type's `create`;
the converter always produces an inner request. -/
def JsonApiRequestConverter.convert_request {Data Content : Type}
    (from_slice : List Nat → Option Data)
    (create : HttpRequest → Except JsonApiRequestConvertError Data → Content)
    (r : HttpRequest) : ApiRequest Content :=
  { content := create r (jsonConvertData from_slice r) }

/-! ### JSON response conversion -/

/-- Interface of an `ApiResponse` content as used by the response converter:
its status code, and its serde serializations (`serde_json::to_vec` and
`to_vec_pretty`), which may fail.  The status code comes from the
`StatusCode` type, so it is a valid HTTP status and the `hyper` response
builder cannot fail on it; the only failure the source's closure can produce
is a serialization failure. -/
structure ApiResponseContentModel (C : Type) where
  status_code : C → Nat
  to_vec : C → Except Unit (List Nat)
  to_vec_pretty : C → Except Unit (List Nat)

structure JsonApiResponseConverter where
  pretty_printed : Bool

/-- Source `JsonApiResponseConverter::convert_response`: serialize the content
compactly or pretty per the flag; on success build the response with the
content's status code, a `Content-Type: application/json` header and the JSON
body; on failure substitute a 500 with an empty body. -/
def JsonApiResponseConverter.convert_response {C : Type}
    (conv : JsonApiResponseConverter) (M : ApiResponseContentModel C)
    (content : C) : HttpResponse :=
  match (if conv.pretty_printed then M.to_vec_pretty content else M.to_vec content) with
  | .ok bytes =>
    { status := M.status_code content
      headers := [("Content-Type", "application/json")]
      body := bytes }
  | .error _ => { status := 500, headers := [], body := [] }

/-! ### Typed WebSocket channel (screw-api/src/json_converter.rs, `ws` module)

The sender's sink half and the receiver's stream half of the split WebSocket
stream are modelled as message lists: the sink accumulates forwarded generic
messages, the stream holds the messages yet to be pulled. -/

structure ApiChannelSender (T G E : Type) where
  convert_typed_message_fn : T → Except E G
  sink : List G

/-- Sender `send`: serialize, then forward to the sink; fails if serialization
fails. -/
def ApiChannelSender.send {T G E : Type} (s : ApiChannelSender T G E) (m : T) :
    Except E (ApiChannelSender T G E) :=
  match s.convert_typed_message_fn m with
  | .ok g => .ok { s with sink := s.sink ++ [g] }
  | .error e => .error e

structure ApiChannelReceiver (G T E : Type) where
  convert_generic_message_fn : G → Except E T
  stream : List G

/-- Receiver pull: the next generic message deserialized, plus the rest of the
sequence; `none` when the stream is exhausted. -/
def ApiChannelReceiver.next {G T E : Type} (r : ApiChannelReceiver G T E) :
    Option (Except E T × ApiChannelReceiver G T E) :=
  match r.stream with
  | [] => none
  | g :: rest => some (r.convert_generic_message_fn g, { r with stream := rest })

structure ApiChannel (SendT ReceiveT G E : Type) where
  sender : ApiChannelSender SendT G E
  receiver : ApiChannelReceiver G ReceiveT E

/-- The serde JSON functions for a type, as consumed by the converter. -/
structure SerdeJson (T E : Type) where
  to_string : T → Except E String
  to_string_pretty : T → Except E String
  from_str : String → Except E T

structure JsonApiWebSocketConverter where
  pretty_printed : Bool

/-- Source `JsonApiWebSocketConverter::convert_stream`: split the stream, wire
the sender with `serde_json::to_string` or `to_string_pretty` per the flag and
the receiver with `serde_json::from_str`.  The sender starts with an empty
sink; `incoming` is the receive half of the transport. -/
def JsonApiWebSocketConverter.convert_stream {SendT ReceiveT E : Type}
    (conv : JsonApiWebSocketConverter) (sendSerde : SerdeJson SendT E)
    (receiveSerde : SerdeJson ReceiveT E) (incoming : List String) :
    ApiChannel SendT ReceiveT String E :=
  { sender :=
      { convert_typed_message_fn := fun m =>
          if conv.pretty_printed then sendSerde.to_string_pretty m
          else sendSerde.to_string m
        sink := [] }
    receiver :=
      { convert_generic_message_fn := fun g => receiveSerde.from_str g
        stream := incoming } }

/-! ## Association-list map lemmas -/

theorem find?_filter_of_imp {α : Type} (l : List α) (p q : α → Bool)
    (h : ∀ a, p a = true → q a = true) :
    (l.filter q).find? p = l.find? p := by
  induction l with
  | nil => rfl
  | cons a t ih =>
    cases hq : q a with
    | true =>
      cases hp : p a with
      | true => simp [List.filter_cons, List.find?_cons, hq, hp]
      | false => simp [List.filter_cons, List.find?_cons, hq, hp, ih]
    | false =>
      have hp : p a = false := by
        cases hpa : p a with
        | true => exact absurd (h a hpa) (by simp [hq])
        | false => rfl
      simp [List.filter_cons, List.find?_cons, hq, hp, ih]

theorem hmGet_cons {V : Type} (e : RouteKey × V) (t : HMap V) (k : RouteKey) :
    hmGet (e :: t) k = if e.1 = k then some e.2 else hmGet t k := by
  by_cases h : e.1 = k <;> simp [hmGet, List.find?_cons, h]

theorem hmGet_insert {V : Type} (m : HMap V) (k k' : RouteKey) (v : V) :
    hmGet (hmInsert m k v) k' = if k' = k then some v else hmGet m k' := by
  by_cases h : k' = k
  · subst h
    rw [if_pos rfl]
    unfold hmGet hmInsert
    rw [List.find?_cons_of_pos _ (by simp)]
    rfl
  · rw [if_neg h]
    unfold hmGet hmInsert
    rw [List.find?_cons_of_neg _ (by simp; exact fun hEq => h hEq.symm),
      find?_filter_of_imp m _ _
        (by intro a ha; simp at ha ⊢; intro hEq; exact h (ha ▸ hEq))]

theorem hmGet_eq_none_of_forall {V : Type} (m : HMap V) (k : RouteKey)
    (h : ∀ e ∈ m, e.1 ≠ k) : hmGet m k = none := by
  have : m.find? (fun e => decide (e.1 = k)) = none := by
    rw [List.find?_eq_none]
    intro e he
    simp [h e he]
  simp [hmGet, this]

theorem hmExtend_cons {V : Type} (m1 : HMap V) (e : RouteKey × V) (t : HMap V) :
    hmExtend m1 (e :: t) = hmExtend (hmInsert m1 e.1 e.2) t := rfl

theorem hmGet_extend_nodup {V : Type} (m2 : HMap V) (m1 : HMap V) (k : RouteKey)
    (hnd : (m2.map (fun e => e.1)).Nodup) :
    hmGet (hmExtend m1 m2) k =
      (match hmGet m2 k with
       | some v => some v
       | none => hmGet m1 k) := by
  induction m2 generalizing m1 with
  | nil => simp [hmExtend, hmGet]
  | cons e t ih =>
    rw [List.map_cons] at hnd
    have hcons := List.nodup_cons.mp hnd
    rw [hmExtend_cons, ih _ hcons.2, hmGet_cons]
    by_cases hk : e.1 = k
    · have ht : hmGet t k = none := by
        apply hmGet_eq_none_of_forall
        intro x hx hEq
        apply hcons.1
        have hmem : x.1 ∈ List.map (fun e => e.1) t :=
          List.mem_map_of_mem (fun e => e.1) hx
        rw [hEq] at hmem
        rw [hk]
        exact hmem
      simp [hk, ht, hmGet_insert]
    · have : k ≠ e.1 := fun hEq => hk hEq.symm
      simp [hk, hmGet_insert, this]

/-! ## Claims about the router -/

/-- C1: for every built router and request, `process` looks up the exact
`(method, path)` pair; a registered handler is the one invoked (never the
fallback) and on a miss the fallback is the one invoked, exactly once —
invocation being modelled as selection of the unique handler applied. -/
theorem router_process_dispatch {H : Type} (b : RouterBuilder H) (router : Router H)
    (hb : b.build = .ok router) (method path : String) :
    (∀ h, hmGet router.handlers (method, path) = some h →
      router.process method path = h) ∧
    (hmGet router.handlers (method, path) = none →
      router.process method path = router.fallback_handler) := by
  constructor
  · intro h hfound
    simp [Router.process, hfound]
  · intro hmiss
    simp [Router.process, hmiss]

theorem router_process_dispatch_witness :
    ({ handlers := [(("GET", "/a"), 1)], fallback_handler := 0 } : Router Nat).process "GET" "/a" = 1 ∧
    ({ handlers := [(("GET", "/a"), 1)], fallback_handler := 0 } : Router Nat).process "GET" "/b" = 0 := by
  refine ⟨ ?_, ?_⟩
  · exact (router_process_dispatch
      (((RouterBuilder.default Nat).route ⟨ "GET", "/a", 1⟩).fallbackHandler 0)
      { handlers := [(("GET", "/a"), 1)], fallback_handler := 0 }
      (by rfl) "GET" "/a").1 1 (by rfl)
  · exact (router_process_dispatch
      (((RouterBuilder.default Nat).route ⟨ "GET", "/a", 1⟩).fallbackHandler 0)
      { handlers := [(("GET", "/a"), 1)], fallback_handler := 0 }
      (by rfl) "GET" "/b").2 (by rfl)

/-- C2: `build` fails with `FallbackHandlerMissing` exactly when no fallback
was supplied (and that is the only error); with a fallback supplied it
succeeds with exactly the registered handlers and that fallback. -/
theorem router_build_fallback_contract {H : Type} (b : RouterBuilder H) :
    (∀ e, (b.build = .error e ↔
      (b.fallback_handler = none ∧ e = .FallbackHandlerMissing))) ∧
    (∀ f, b.fallback_handler = some f →
      b.build = .ok { handlers := b.handlers, fallback_handler := f }) := by
  cases hf : b.fallback_handler with
  | none =>
    constructor
    · intro e
      cases e
      simp [RouterBuilder.build, hf]
    · intro f hsome
      simp [hf] at hsome
  | some a =>
    constructor
    · intro e
      simp [RouterBuilder.build, hf]
    · intro f hsome
      have hfa : a = f := Option.some.inj hsome
      subst hfa
      unfold RouterBuilder.build
      rw [hf]

theorem router_build_fallback_contract_witness :
    ((RouterBuilder.default Nat).build = .error .FallbackHandlerMissing) ∧
    (((RouterBuilder.default Nat).fallbackHandler 7).build =
      .ok { handlers := [], fallback_handler := 7 }) := by
  refine ⟨ ?_, ?_⟩
  · exact ((router_build_fallback_contract (RouterBuilder.default Nat)).1
      .FallbackHandlerMissing).mpr ⟨ rfl, rfl⟩
  · exact (router_build_fallback_contract
      ((RouterBuilder.default Nat).fallbackHandler 7)).2 7 rfl

/-- C10: registering twice for the same pair leaves exactly one binding, the
later one, and build still succeeds; merging a routes collection also lets
the collection's binding win over the builder's. -/
theorem route_registration_last_wins {H : Type} (b : RouterBuilder H)
    (meth pa : String) (h1 h2 fb : H) (rc : RoutesCollection H) (k : RouteKey) (v : H) :
    (hmGet ((b.route ⟨ meth, pa, h1⟩).route ⟨ meth, pa, h2⟩).handlers (meth, pa) = some h2) ∧
    (((b.route ⟨ meth, pa, h1⟩).route ⟨ meth, pa, h2⟩).handlers.countP
      (fun e => decide (e.1 = (meth, pa))) = 1) ∧
    ((((b.route ⟨ meth, pa, h1⟩).route ⟨ meth, pa, h2⟩).fallbackHandler fb).build =
      .ok { handlers := ((b.route ⟨ meth, pa, h1⟩).route ⟨ meth, pa, h2⟩).handlers,
            fallback_handler := fb }) ∧
    ((rc.handlers.map (fun e => e.1)).Nodup → hmGet rc.handlers k = some v →
      hmGet ((b.routes rc).handlers) k = some v) := by
  refine ⟨ ?_, ?_, ?_, ?_⟩
  · simp [RouterBuilder.route, hmGet_insert]
  · have hz : ((b.route ⟨ meth, pa, h1⟩).handlers.filter
        (fun e => decide (e.1 ≠ (meth, pa)))).countP
        (fun e => decide (e.1 = (meth, pa))) = 0 := by
      rw [List.countP_eq_zero]
      intro e he
      have := (List.mem_filter.mp he).2
      simp at this ⊢
      exact this
    simp [RouterBuilder.route, hmInsert, List.countP_cons, hz]
  · simp [RouterBuilder.fallbackHandler, RouterBuilder.build]
  · intro hnd hv
    have := hmGet_extend_nodup rc.handlers b.handlers k hnd
    simp [RouterBuilder.routes, this, hv]

theorem route_registration_last_wins_witness :
    hmGet (((RouterBuilder.default Nat).route ⟨ "GET", "/a", 1⟩).route
      ⟨ "GET", "/a", 2⟩).handlers ("GET", "/a") = some 2 ∧
    hmGet (((RouterBuilder.default Nat).routes
      { handlers := [(("GET", "/a"), 5)] }).handlers) ("GET", "/a") = some 5 := by
  refine ⟨ ?_, ?_⟩
  · exact (route_registration_last_wins (RouterBuilder.default Nat) "GET" "/a" 1 2 0
      { handlers := [(("GET", "/a"), 5)] } ("GET", "/a") 5).1
  · exact (route_registration_last_wins (RouterBuilder.default Nat) "GET" "/a" 1 2 0
      { handlers := [(("GET", "/a"), 5)] } ("GET", "/a") 5).2.2.2 (by simp) (by rfl)

/-! ## Claims about the WebSocket upgrade handshake -/

instance {ε α : Type} [DecidableEq ε] [DecidableEq α] : DecidableEq (Except ε α) :=
  fun x y =>
    match x, y with
    | .error a, .error b =>
      if h : a = b then isTrue (by rw [h])
      else isFalse (by intro hc; cases hc; exact h rfl)
    | .ok a, .ok b =>
      if h : a = b then isTrue (by rw [h])
      else isFalse (by intro hc; cases hc; exact h rfl)
    | .error _, .ok _ => isFalse (by intro hc; cases hc)
    | .ok _, .error _ => isFalse (by intro hc; cases hc)

/-- A fully valid handshake request carrying the RFC 6455 sample key. -/
def sampleWsRequest : HttpRequest :=
  { method := "GET"
    version := 11
    headers := [("Connection", strBytes "Upgrade"), ("Upgrade", strBytes "websocket"),
      ("Sec-WebSocket-Version", strBytes "13"),
      ("Sec-WebSocket-Key", strBytes "dGhlIHNhbXBsZSBub25jZQ==")]
    body := [] }

/-- C3: the six handshake checks are evaluated in the given order, the first
failure determines the protocol error, and the handshake is accepted exactly
when all six pass. -/
theorem ws_handshake_checks_in_order (r : HttpRequest) :
    ((try_upgradable r).isOk = true ↔
      (is_get_method r = true ∧ is_http_version_11_or_larger r = true ∧
        is_connection_header_upgrade r = true ∧ is_upgrade_header_web_socket r = true ∧
        is_web_socket_version_header_13 r = true ∧
        (get_web_socket_key_header r).isSome = true)) ∧
    (try_upgradable r = .error .WrongHttpMethod ↔ is_get_method r = false) ∧
    (try_upgradable r = .error .WrongHttpVersion ↔
      (is_get_method r = true ∧ is_http_version_11_or_larger r = false)) ∧
    (try_upgradable r = .error .MissingConnectionUpgradeHeader ↔
      (is_get_method r = true ∧ is_http_version_11_or_larger r = true ∧
        is_connection_header_upgrade r = false)) ∧
    (try_upgradable r = .error .MissingUpgradeWebSocketHeader ↔
      (is_get_method r = true ∧ is_http_version_11_or_larger r = true ∧
        is_connection_header_upgrade r = true ∧
        is_upgrade_header_web_socket r = false)) ∧
    (try_upgradable r = .error .MissingSecWebSocketVersionHeader ↔
      (is_get_method r = true ∧ is_http_version_11_or_larger r = true ∧
        is_connection_header_upgrade r = true ∧ is_upgrade_header_web_socket r = true ∧
        is_web_socket_version_header_13 r = false)) ∧
    (try_upgradable r = .error .MissingSecWebSocketKey ↔
      (is_get_method r = true ∧ is_http_version_11_or_larger r = true ∧
        is_connection_header_upgrade r = true ∧ is_upgrade_header_web_socket r = true ∧
        is_web_socket_version_header_13 r = true ∧
        get_web_socket_key_header r = none)) := by
  cases h1 : is_get_method r <;>
    cases h2 : is_http_version_11_or_larger r <;>
      cases h3 : is_connection_header_upgrade r <;>
        cases h4 : is_upgrade_header_web_socket r <;>
          cases h5 : is_web_socket_version_header_13 r <;>
            cases h6 : get_web_socket_key_header r <;>
              simp [try_upgradable, Except.isOk, Except.toBool, h1, h2, h3, h4, h5, h6]

set_option maxRecDepth 20000 in
/-- C4: a request passing all six checks gets a 101 response whose headers are
exactly `Connection: Upgrade`, `Upgrade: websocket` and the accept key derived
from the request's `Sec-WebSocket-Key` by base64 of SHA-1 of the key followed
by the RFC 6455 GUID; on the sample key the accept value is the RFC vector. -/
theorem ws_accept_response (r : HttpRequest) (k : List Nat)
    (hok : (try_upgradable r).isOk = true)
    (hk : get_web_socket_key_header r = some k) :
    wsRespond r = .response
      { status := 101
        headers := [("Connection", "Upgrade"), ("Upgrade", "websocket"),
          ("Sec-WebSocket-Accept", derive_accept_key k)]
        body := [] } ∧
    derive_accept_key (strBytes "dGhlIHNhbXBsZSBub25jZQ==") =
      "s3pPLMBiTxaQ9kYGzzhZRbK+xOo=" := by
  refine ⟨ ?_, by decide⟩
  cases h1 : is_get_method r <;>
    cases h2 : is_http_version_11_or_larger r <;>
      cases h3 : is_connection_header_upgrade r <;>
        cases h4 : is_upgrade_header_web_socket r <;>
          cases h5 : is_web_socket_version_header_13 r <;>
            simp_all [try_upgradable, Except.isOk, Except.toBool, wsRespond, hk]

set_option maxRecDepth 20000 in
theorem ws_accept_response_witness :
    wsRespond sampleWsRequest = .response
      { status := 101
        headers := [("Connection", "Upgrade"), ("Upgrade", "websocket"),
          ("Sec-WebSocket-Accept", "s3pPLMBiTxaQ9kYGzzhZRbK+xOo=")]
        body := [] } := by
  have h := ws_accept_response sampleWsRequest
    (strBytes "dGhlIHNhbXBsZSBub25jZQ==") (by decide) (by decide)
  rw [h.1, h.2]

/-- C5: every validation failure other than the method check yields a plain
400 with an empty body, while a method-check failure makes `respond` run
`panic!`, aborting the calling task instead of producing a 400. -/
theorem ws_reject_behavior (r : HttpRequest) (e : ProtocolError)
    (he : try_upgradable r = .error e) :
    (e = .WrongHttpMethod →
      wsRespond r = .panicked "incorrect method for WebSocket, should be GET") ∧
    (e ≠ .WrongHttpMethod →
      wsRespond r = .response { status := 400, headers := [], body := [] }) := by
  unfold wsRespond
  rw [he]
  cases e <;> simp

theorem ws_reject_behavior_witness :
    wsRespond { method := "POST", version := 11, headers := [], body := [] } =
      .panicked "incorrect method for WebSocket, should be GET" ∧
    wsRespond { method := "GET", version := 10, headers := [], body := [] } =
      .response { status := 400, headers := [], body := [] } := by
  refine ⟨ ?_, ?_⟩
  · exact (ws_reject_behavior { method := "POST", version := 11, headers := [], body := [] }
      .WrongHttpMethod (by decide)).1 rfl
  · exact (ws_reject_behavior { method := "GET", version := 10, headers := [], body := [] }
      .WrongHttpVersion (by decide)).2 (by decide)

/-- A GET handshake request whose `Connection` header holds the single byte
255, which is not visible ASCII. -/
def invalidConnectionBytesRequest : HttpRequest :=
  { method := "GET"
    version := 11
    headers := [("Connection", [255]), ("Upgrade", strBytes "websocket"),
      ("Sec-WebSocket-Version", strBytes "13"), ("Sec-WebSocket-Key", strBytes "x")]
    body := [] }

/-- With a GET method the first check passes, so `try_upgradable` can never
report `WrongHttpMethod`. -/
theorem try_upgradable_ne_wrong_method (r : HttpRequest)
    (hget : is_get_method r = true) :
    try_upgradable r ≠ .error .WrongHttpMethod := by
  unfold try_upgradable
  rw [hget]
  cases h2 : is_http_version_11_or_larger r <;>
    cases h3 : is_connection_header_upgrade r <;>
      cases h4 : is_upgrade_header_web_socket r <;>
        cases h5 : is_web_socket_version_header_13 r <;>
          cases h6 : get_web_socket_key_header r <;>
            simp [h2, h3, h4, h5, h6]

/-- C9: a `Connection`, `Upgrade` or `Sec-WebSocket-Version` header whose
bytes are not readable as a visible-ASCII string makes the corresponding
check false; for a GET request such a header leads to the plain 400 empty
response, and no header content can make checks 2-6 abort the task. -/
theorem ws_invalid_header_bytes_safe (r : HttpRequest) :
    (∀ bs, headerGet r "Connection" = some bs → bs.all visibleAsciiByte = false →
      is_connection_header_upgrade r = false) ∧
    (∀ bs, headerGet r "Upgrade" = some bs → bs.all visibleAsciiByte = false →
      is_upgrade_header_web_socket r = false) ∧
    (∀ bs, headerGet r "Sec-WebSocket-Version" = some bs →
      bs.all visibleAsciiByte = false →
      is_web_socket_version_header_13 r = false) ∧
    (is_get_method r = true → ∀ msg, wsRespond r ≠ .panicked msg) ∧
    (is_get_method r = true →
      (∃ bs, (headerGet r "Connection" = some bs ∨ headerGet r "Upgrade" = some bs ∨
          headerGet r "Sec-WebSocket-Version" = some bs) ∧
        bs.all visibleAsciiByte = false) →
      wsRespond r = .response { status := 400, headers := [], body := [] }) := by
  have hconn : ∀ bs, headerGet r "Connection" = some bs →
      bs.all visibleAsciiByte = false → is_connection_header_upgrade r = false := by
    intro bs hbs hbad
    have hc : ¬ (bs.all visibleAsciiByte = true) := by
      rw [hbad]
      decide
    have hnone : toStr? bs = none := by
      unfold toStr?
      rw [if_neg hc]
    simp [is_connection_header_upgrade, hbs, hnone]
  have hupg : ∀ bs, headerGet r "Upgrade" = some bs →
      bs.all visibleAsciiByte = false → is_upgrade_header_web_socket r = false := by
    intro bs hbs hbad
    have hc : ¬ (bs.all visibleAsciiByte = true) := by
      rw [hbad]
      decide
    have hnone : toStr? bs = none := by
      unfold toStr?
      rw [if_neg hc]
    simp [is_upgrade_header_web_socket, hbs, hnone]
  have hver : ∀ bs, headerGet r "Sec-WebSocket-Version" = some bs →
      bs.all visibleAsciiByte = false → is_web_socket_version_header_13 r = false := by
    intro bs hbs hbad
    have hne : bs ≠ strBytes "13" := by
      intro hEq
      rw [hEq] at hbad
      simp [strBytes, visibleAsciiByte] at hbad
    simp [is_web_socket_version_header_13, hbs, hne]
  have hnopanic : is_get_method r = true → ∀ msg, wsRespond r ≠ .panicked msg := by
    intro hget msg
    have hno : try_upgradable r ≠ .error .WrongHttpMethod :=
      try_upgradable_ne_wrong_method r hget
    unfold wsRespond
    cases htry : try_upgradable r with
    | ok u => simp
    | error e => cases e <;> simp_all
  refine ⟨ hconn, hupg, hver, hnopanic, ?_⟩
  intro hget hbad
  obtain ⟨ bs, hwhich, hbytes⟩ := hbad
  have hfail : is_connection_header_upgrade r = false ∨
      is_upgrade_header_web_socket r = false ∨
      is_web_socket_version_header_13 r = false := by
    rcases hwhich with h | h | h
    · exact Or.inl (hconn bs h hbytes)
    · exact Or.inr (Or.inl (hupg bs h hbytes))
    · exact Or.inr (Or.inr (hver bs h hbytes))
  cases h2 : is_http_version_11_or_larger r <;>
    cases h3 : is_connection_header_upgrade r <;>
      cases h4 : is_upgrade_header_web_socket r <;>
        cases h5 : is_web_socket_version_header_13 r <;>
          simp_all [wsRespond, try_upgradable]

theorem ws_invalid_header_bytes_safe_witness :
    wsRespond invalidConnectionBytesRequest =
      .response { status := 400, headers := [], body := [] } := by
  exact (ws_invalid_header_bytes_safe invalidConnectionBytesRequest).2.2.2.2
    (by decide) ⟨ [255], Or.inl (by decide), by decide⟩

/-! ## Claims about the JSON request conversion -/

/-- A request whose `Content-Type` header holds the single byte 255, which is
not visible ASCII and thus not readable as a string. -/
def invalidContentTypeRequest : HttpRequest :=
  { method := "POST"
    version := 11
    headers := [("Content-Type", [255])]
    body := [] }

/-- C6 counterexample: a present `Content-Type` value that is neither empty
nor `application/json` is claimed to yield `ContentTypeIncorrect`, but a value
whose bytes are not readable as a string yields the `ToStr` error instead. -/
theorem json_content_type_unreadable_counterexample :
    headerGet invalidContentTypeRequest "Content-Type" = some [255] ∧
    [255] ≠ strBytes "" ∧
    [255] ≠ strBytes "application/json" ∧
    jsonConvertData (fun _ => (none : Option Unit)) invalidContentTypeRequest =
      .error .ToStr ∧
    ((.error .ToStr : Except JsonApiRequestConvertError Unit) ≠
      .error .ContentTypeIncorrect) := by
  refine ⟨ by decide, by decide, by decide, by decide, by decide⟩

/-- C6 (amended): the decode result embedded in the inner request is
determined by the `Content-Type` header — absent header or empty string
value: `ContentTypeMissed`; value equal to the literal `application/json`:
body deserialization, a malformed body folding a `SerdeJson` error into the
result; any other value readable as a string: `ContentTypeIncorrect`; a
present value not readable as a string (bytes outside visible ASCII): the
`ToStr` error folded into the result.  In every case the converter still
produces an inner typed request embedding the result — a decode failure
never aborts the pipeline. -/
theorem json_convert_request_decode {Data Content : Type}
    (from_slice : List Nat → Option Data)
    (create : HttpRequest → Except JsonApiRequestConvertError Data → Content)
    (r : HttpRequest) :
    (JsonApiRequestConverter.convert_request from_slice create r =
      { content := create r (jsonConvertData from_slice r) }) ∧
    (headerGet r "Content-Type" = none →
      jsonConvertData from_slice r = .error .ContentTypeMissed) ∧
    (∀ bs, headerGet r "Content-Type" = some bs → toStr? bs = some [] →
      jsonConvertData from_slice r = .error .ContentTypeMissed) ∧
    (∀ bs, headerGet r "Content-Type" = some bs →
      toStr? bs = some "application/json".toList →
      ((∀ d, from_slice r.body = some d → jsonConvertData from_slice r = .ok d) ∧
        (from_slice r.body = none →
          jsonConvertData from_slice r = .error .SerdeJson))) ∧
    (∀ bs ct, headerGet r "Content-Type" = some bs → toStr? bs = some ct →
      ct ≠ [] → ct ≠ "application/json".toList →
      jsonConvertData from_slice r = .error .ContentTypeIncorrect) ∧
    (∀ bs, headerGet r "Content-Type" = some bs → toStr? bs = none →
      jsonConvertData from_slice r = .error .ToStr) := by
  refine ⟨ rfl, ?_, ?_, ?_, ?_, ?_⟩
  · intro hnone
    simp [jsonConvertData, hnone]
  · intro bs hbs hempty
    simp only [jsonConvertData, hbs, hempty]
    simp
  · intro bs hbs hjson
    constructor
    · intro d hd
      simp only [jsonConvertData, hbs, hjson, hd]
      simp
    · intro hnone
      simp only [jsonConvertData, hbs, hjson, hnone]
      simp
  · intro bs ct hbs hct hne hnj
    simp only [jsonConvertData, hbs, hct]
    rw [if_neg hnj, if_neg hne]
  · intro bs hbs hnostr
    simp only [jsonConvertData, hbs, hnostr]

/-- A request without a `Content-Type` header. -/
def noContentTypeRequest : HttpRequest :=
  { method := "POST", version := 11, headers := [], body := [] }

/-- A request with `Content-Type: text/plain`. -/
def textPlainRequest : HttpRequest :=
  { method := "POST"
    version := 11
    headers := [("Content-Type", strBytes "text/plain")]
    body := [] }

/-- A request with `Content-Type: application/json`. -/
def jsonContentTypeRequest : HttpRequest :=
  { method := "POST"
    version := 11
    headers := [("Content-Type", strBytes "application/json")]
    body := strBytes "{}" }

theorem json_convert_request_decode_witness :
    jsonConvertData (fun _ => (none : Option Unit)) noContentTypeRequest =
      .error .ContentTypeMissed ∧
    jsonConvertData (fun _ => (none : Option Unit)) textPlainRequest =
      .error .ContentTypeIncorrect ∧
    jsonConvertData (fun _ => (some () : Option Unit)) jsonContentTypeRequest =
      .ok () := by
  refine ⟨ ?_, ?_, ?_⟩
  · exact (json_convert_request_decode (fun _ => (none : Option Unit))
      (fun _ res => res) noContentTypeRequest).2.1 (by decide)
  · exact (json_convert_request_decode (fun _ => (none : Option Unit))
      (fun _ res => res) textPlainRequest).2.2.2.2.1 (strBytes "text/plain")
      "text/plain".toList (by decide) (by decide) (by decide) (by decide)
  · exact ((json_convert_request_decode (fun _ => (some () : Option Unit))
      (fun _ res => res) jsonContentTypeRequest).2.2.2.1
      (strBytes "application/json") (by decide) (by decide)).1 () (by decide)

/-! ## Claim about the JSON response conversion -/

/-- C7: the response converter serializes the content compactly or pretty per
the `pretty_printed` flag, sets the content's status code and the
`application/json` content type header; a serialization failure is replaced
by a fixed 500 response with an empty body. -/
theorem json_convert_response_encode {C : Type} (conv : JsonApiResponseConverter)
    (M : ApiResponseContentModel C) (content : C) :
    (∀ bytes,
      (if conv.pretty_printed then M.to_vec_pretty content else M.to_vec content) =
        .ok bytes →
      conv.convert_response M content =
        { status := M.status_code content
          headers := [("Content-Type", "application/json")]
          body := bytes }) ∧
    (∀ e,
      (if conv.pretty_printed then M.to_vec_pretty content else M.to_vec content) =
        .error e →
      conv.convert_response M content = { status := 500, headers := [], body := [] }) := by
  constructor <;> intro x hx <;>
    simp [JsonApiResponseConverter.convert_response, hx]

/-- A content model over `Nat` whose compact serialization succeeds and whose
pretty serialization fails. -/
def sampleContentModel : ApiResponseContentModel Nat :=
  { status_code := fun _ => 200
    to_vec := fun n => .ok [n]
    to_vec_pretty := fun _ => .error () }

theorem json_convert_response_encode_witness :
    JsonApiResponseConverter.convert_response { pretty_printed := false }
        sampleContentModel 7 =
      { status := 200, headers := [("Content-Type", "application/json")], body := [7] } ∧
    JsonApiResponseConverter.convert_response { pretty_printed := true }
        sampleContentModel 7 =
      { status := 500, headers := [], body := [] } := by
  refine ⟨ ?_, ?_⟩
  · exact (json_convert_response_encode { pretty_printed := false }
      sampleContentModel 7).1 [7] (by rfl)
  · exact (json_convert_response_encode { pretty_printed := true }
      sampleContentModel 7).2 () (by rfl)

/-! ## Claim about the typed JSON channel -/

/-- C8: on a loopback transport — the sender's sink fed to the receiver — a
value of a type that round-trips through the serde JSON functions is received
back unchanged: the receiver's deserialization of the sender's serialized
message is `Ok` of the original value, whichever printing the flag selects. -/
theorem json_channel_round_trip {T E : Type} (conv : JsonApiWebSocketConverter)
    (codec : SerdeJson T E) (m : T)
    (hcompact : ∀ x s, codec.to_string x = .ok s → codec.from_str s = .ok x)
    (hpretty : ∀ x s, codec.to_string_pretty x = .ok s → codec.from_str s = .ok x) :
    ∀ s', (conv.convert_stream codec codec []).sender.send m = .ok s' →
      (ApiChannelReceiver.next
        { convert_generic_message_fn :=
            (conv.convert_stream codec codec []).receiver.convert_generic_message_fn
          stream := s'.sink }).map (fun x => x.1) = some (.ok m) := by
  intro s' hs
  by_cases hp : conv.pretty_printed = true
  · cases hser : codec.to_string_pretty m with
    | ok s =>
      simp only [JsonApiWebSocketConverter.convert_stream, ApiChannelSender.send,
        hp, if_true, hser] at hs
      have hs' := Except.ok.inj hs
      rw [← hs']
      simp [ApiChannelReceiver.next, JsonApiWebSocketConverter.convert_stream,
        hpretty m s hser]
    | error e =>
      simp only [JsonApiWebSocketConverter.convert_stream, ApiChannelSender.send,
        hp, if_true, hser] at hs
      cases hs
  · rw [Bool.not_eq_true] at hp
    cases hser : codec.to_string m with
    | ok s =>
      simp only [JsonApiWebSocketConverter.convert_stream, ApiChannelSender.send,
        hp, Bool.false_eq_true, if_false, hser] at hs
      have hs' := Except.ok.inj hs
      rw [← hs']
      simp [ApiChannelReceiver.next, JsonApiWebSocketConverter.convert_stream,
        hcompact m s hser]
    | error e =>
      simp only [JsonApiWebSocketConverter.convert_stream, ApiChannelSender.send,
        hp, Bool.false_eq_true, if_false, hser] at hs
      cases hs

/-- A serde JSON model for `Unit` that round-trips through the string
`null`. -/
def unitSerde : SerdeJson Unit Unit :=
  { to_string := fun _ => .ok "null"
    to_string_pretty := fun _ => .ok "null"
    from_str := fun s => if s = "null" then .ok () else .error () }

theorem json_channel_round_trip_witness :
    (ApiChannelReceiver.next
      { convert_generic_message_fn := fun g => unitSerde.from_str g
        stream := ["null"] }).map (fun x => x.1) = some (.ok ()) := by
  exact json_channel_round_trip { pretty_printed := false } unitSerde ()
    (by intro x s h; have hh := Except.ok.inj h; subst hh; rfl)
    (by intro x s h; have hh := Except.ok.inj h; subst hh; rfl)
    { convert_typed_message_fn := fun m => unitSerde.to_string m
      sink := ["null"] }
    (by rfl)

end Screw
